import Mathlib

/-!
Verification of the DenseUNet architecture defined in `src/model/d3_net.py`.

The network is shallowly embedded: a tensor is a quadruple of dimension sizes
(batch, channels, height, width) together with a total data function into ℝ
(entries outside the stated bounds are junk, as usual for such embeddings).
PyTorch layers are embedded with their inference-time semantics: `BatchNorm2d`
normalizes with the running statistics and applies the learned affine map,
and `F.dropout(training=False)` is the identity.  Floating-point arithmetic
is idealized as real arithmetic.

The helper modules imported from `conv_blocks` (`conv3x3`, `UpsampleBlock`
and the decoder block factory `get_decoder_block`) are not part of the
sources; where their behaviour matters it is modelled from the spec, and the
decoder blocks themselves are kept as uninterpreted functions stored in the
parameter record.
-/

/-- A 4-d tensor in NCHW layout: dimension sizes plus a total data function. -/
structure Tensor where
  batch : ℕ
  channels : ℕ
  height : ℕ
  width : ℕ
  data : ℕ → ℕ → ℕ → ℕ → ℝ

/-- Convolution weights, indexed by (out channel, in channel, kernel row, kernel col). -/
def ConvW : Type := ℕ → ℕ → ℕ → ℕ → ℝ

/-- Output size of a convolution / pooling window along one spatial dimension:
floor((n + 2p - k)/s) + 1 (PyTorch formula, here in ℕ with truncated subtraction). -/
def convOutDim (n k s p : ℕ) : ℕ := (n + 2 * p - k) / s + 1

/-- Reading an input tensor through zero padding of size `p` on each spatial side. -/
noncomputable def padAccess (x : Tensor) (p : ℕ) (b c i j : ℕ) : ℝ :=
  if p ≤ i ∧ i < x.height + p ∧ p ≤ j ∧ j < x.width + p then
    x.data b c (i - p) (j - p)
  else 0

/-- Semantics of `nn.Conv2d(inC, outC, kernel_size=k, stride=s, padding=p, bias=False)`. -/
noncomputable def conv2d (inC outC k s p : ℕ) (w : ConvW) (x : Tensor) : Tensor where
  batch := x.batch
  channels := outC
  height := convOutDim x.height k s p
  width := convOutDim x.width k s p
  data b oc i j :=
    ∑ ic ∈ Finset.range inC, ∑ kh ∈ Finset.range k, ∑ kw ∈ Finset.range k,
      w oc ic kh kw * padAccess x p b ic (s * i + kh) (s * j + kw)

/-- Per-channel parameters of an `nn.BatchNorm2d` module: learned affine map
(`gamma`, `beta`) and running statistics (`mean`, `var`). -/
structure BNParams where
  gamma : ℕ → ℝ
  beta : ℕ → ℝ
  mean : ℕ → ℝ
  var : ℕ → ℝ

/-- The epsilon of `nn.BatchNorm2d` (PyTorch default 1e-5). -/
noncomputable def bnEps : ℝ := 1 / 100000

/-- Semantics of `nn.BatchNorm2d` in inference mode: normalize each channel by the
running statistics, then apply the learned per-channel affine map. -/
noncomputable def batchNorm2d (p : BNParams) (x : Tensor) : Tensor :=
  { x with data := fun b c h w =>
              p.gamma c * ((x.data b c h w - p.mean c) / Real.sqrt (p.var c + bnEps))
                + p.beta c }

/-- Semantics of `nn.ReLU`, elementwise max with 0. -/
noncomputable def reluT (x : Tensor) : Tensor :=
  { x with data := fun b c h w => max (x.data b c h w) 0 }

/-- Semantics of `nn.LeakyReLU(0.2)`: max(0,v) + 0.2 * min(0,v). -/
noncomputable def leakyRelu (x : Tensor) : Tensor :=
  { x with data := fun b c h w =>
              max (x.data b c h w) 0 + (1 / 5) * min (x.data b c h w) 0 }

/-- Semantics of `torch.cat([x, y], 1)`: concatenation along the channel axis
(the non-concatenated dimension sizes are taken from `x`; torch requires them
to agree). -/
noncomputable def Tensor.cat (x y : Tensor) : Tensor where
  batch := x.batch
  channels := x.channels + y.channels
  height := x.height
  width := x.width
  data b c h w := if c < x.channels then x.data b c h w else y.data b (c - x.channels) h w

/-- Semantics of `nn.AvgPool2d(kernel_size=k, stride=s)`. -/
noncomputable def avgPool2d (k s : ℕ) (x : Tensor) : Tensor where
  batch := x.batch
  channels := x.channels
  height := (x.height - k) / s + 1
  width := (x.width - k) / s + 1
  data b c h w :=
    (∑ i ∈ Finset.range k, ∑ j ∈ Finset.range k, x.data b c (s * h + i) (s * w + j))
      / ((k : ℝ) * k)

/-- Semantics of `F.dropout(·, training=False)`: at inference dropout is the identity. -/
def dropoutInf (x : Tensor) : Tensor := x

/-- Semantics of `nn.Tanh`, elementwise hyperbolic tangent. -/
noncomputable def tanhT (x : Tensor) : Tensor :=
  { x with data := fun b c h w => Real.tanh (x.data b c h w) }

@[simp] lemma batchNorm2d_batch (p : BNParams) (x : Tensor) :
    (batchNorm2d p x).batch = x.batch := rfl

@[simp] lemma batchNorm2d_channels (p : BNParams) (x : Tensor) :
    (batchNorm2d p x).channels = x.channels := rfl

@[simp] lemma batchNorm2d_height (p : BNParams) (x : Tensor) :
    (batchNorm2d p x).height = x.height := rfl

@[simp] lemma batchNorm2d_width (p : BNParams) (x : Tensor) :
    (batchNorm2d p x).width = x.width := rfl

@[simp] lemma reluT_batch (x : Tensor) : (reluT x).batch = x.batch := rfl

@[simp] lemma reluT_channels (x : Tensor) : (reluT x).channels = x.channels := rfl

@[simp] lemma reluT_height (x : Tensor) : (reluT x).height = x.height := rfl

@[simp] lemma reluT_width (x : Tensor) : (reluT x).width = x.width := rfl

@[simp] lemma leakyRelu_batch (x : Tensor) : (leakyRelu x).batch = x.batch := rfl

@[simp] lemma leakyRelu_channels (x : Tensor) : (leakyRelu x).channels = x.channels := rfl

@[simp] lemma leakyRelu_height (x : Tensor) : (leakyRelu x).height = x.height := rfl

@[simp] lemma leakyRelu_width (x : Tensor) : (leakyRelu x).width = x.width := rfl

@[simp] lemma tanhT_batch (x : Tensor) : (tanhT x).batch = x.batch := rfl

@[simp] lemma tanhT_channels (x : Tensor) : (tanhT x).channels = x.channels := rfl

@[simp] lemma tanhT_height (x : Tensor) : (tanhT x).height = x.height := rfl

@[simp] lemma tanhT_width (x : Tensor) : (tanhT x).width = x.width := rfl

@[simp] lemma conv2d_channels (inC outC k s p : ℕ) (w : ConvW) (x : Tensor) :
    (conv2d inC outC k s p w x).channels = outC := rfl

@[simp] lemma conv2d_batch (inC outC k s p : ℕ) (w : ConvW) (x : Tensor) :
    (conv2d inC outC k s p w x).batch = x.batch := rfl

@[simp] lemma conv2d_height (inC outC k s p : ℕ) (w : ConvW) (x : Tensor) :
    (conv2d inC outC k s p w x).height = convOutDim x.height k s p := rfl

@[simp] lemma conv2d_width (inC outC k s p : ℕ) (w : ConvW) (x : Tensor) :
    (conv2d inC outC k s p w x).width = convOutDim x.width k s p := rfl

@[simp] lemma cat_batch (x y : Tensor) : (Tensor.cat x y).batch = x.batch := rfl

@[simp] lemma cat_channels (x y : Tensor) :
    (Tensor.cat x y).channels = x.channels + y.channels := rfl

@[simp] lemma cat_height (x y : Tensor) : (Tensor.cat x y).height = x.height := rfl

@[simp] lemma cat_width (x y : Tensor) : (Tensor.cat x y).width = x.width := rfl

@[simp] lemma avgPool2d_batch (k s : ℕ) (x : Tensor) : (avgPool2d k s x).batch = x.batch := rfl

@[simp] lemma avgPool2d_channels (k s : ℕ) (x : Tensor) :
    (avgPool2d k s x).channels = x.channels := rfl

@[simp] lemma avgPool2d_height (k s : ℕ) (x : Tensor) :
    (avgPool2d k s x).height = (x.height - k) / s + 1 := rfl

@[simp] lemma avgPool2d_width (k s : ℕ) (x : Tensor) :
    (avgPool2d k s x).width = (x.width - k) / s + 1 := rfl

/-- Parameters of a `_DenseLayer` (d3_net.py lines 65-76): two batch norms and
the weights of the 1x1 bottleneck and 3x3 convolutions. -/
structure DenseLayerParams where
  norm1 : BNParams
  conv1 : ConvW
  norm2 : BNParams
  conv2 : ConvW

/-- The `new_features` computed by `_DenseLayer.forward` (lines 78-81):
norm1 → relu1 → conv1 (1x1, to bn_size*growth channels) → norm2 → relu2 →
conv2 (3x3, padding 1, to growth channels), then dropout when drop_rate > 0. -/
noncomputable def denseLayerNewFeatures (p : DenseLayerParams)
    (num_input_features growth_rate bn_size : ℕ) (drop_rate : ℚ) (x : Tensor) : Tensor :=
  let h1 := conv2d num_input_features (bn_size * growth_rate) 1 1 0 p.conv1
    (reluT (batchNorm2d p.norm1 x))
  let h2 := conv2d (bn_size * growth_rate) growth_rate 3 1 1 p.conv2
    (reluT (batchNorm2d p.norm2 h1))
  if 0 < drop_rate then dropoutInf h2 else h2

/-- Semantics of `_DenseLayer.forward` (line 82): concatenate the input with the
new features along the channel axis. -/
noncomputable def denseLayerForward (p : DenseLayerParams)
    (num_input_features growth_rate bn_size : ℕ) (drop_rate : ℚ) (x : Tensor) : Tensor :=
  Tensor.cat x (denseLayerNewFeatures p num_input_features growth_rate bn_size drop_rate x)

/-- The first `j` layers of a `_DenseBlock` (lines 85-90): layer `i` is a
`_DenseLayer` constructed with `num_input_features + i * growth_rate` input
features, and `nn.Sequential` applies the layers in insertion order. -/
noncomputable def denseBlockUpTo (ps : ℕ → DenseLayerParams)
    (num_input_features bn_size growth_rate : ℕ) (drop_rate : ℚ) :
    ℕ → Tensor → Tensor
  | 0, x => x
  | j + 1, x =>
    denseLayerForward (ps j) (num_input_features + j * growth_rate) growth_rate bn_size
      drop_rate (denseBlockUpTo ps num_input_features bn_size growth_rate drop_rate j x)

/-- Semantics of a full `_DenseBlock` with `num_layers` layers. -/
noncomputable def denseBlock (ps : ℕ → DenseLayerParams)
    (num_input_features bn_size growth_rate : ℕ) (drop_rate : ℚ)
    (num_layers : ℕ) (x : Tensor) : Tensor :=
  denseBlockUpTo ps num_input_features bn_size growth_rate drop_rate num_layers x

lemma denseLayerNewFeatures_channels (p : DenseLayerParams) (nf g bs : ℕ) (dr : ℚ)
    (x : Tensor) : (denseLayerNewFeatures p nf g bs dr x).channels = g := by
  unfold denseLayerNewFeatures
  by_cases h : 0 < dr <;> simp [h, dropoutInf, conv2d]

lemma denseLayerForward_channels (p : DenseLayerParams) (nf g bs : ℕ) (dr : ℚ)
    (x : Tensor) : (denseLayerForward p nf g bs dr x).channels = x.channels + g := by
  unfold denseLayerForward
  simp [Tensor.cat, denseLayerNewFeatures_channels]

lemma denseBlockUpTo_channels (ps : ℕ → DenseLayerParams) (nf bs g : ℕ) (dr : ℚ)
    (j : ℕ) (x : Tensor) :
    (denseBlockUpTo ps nf bs g dr j x).channels = x.channels + j * g := by
  induction j with
  | zero => simp [denseBlockUpTo]
  | succ n ih =>
    rw [denseBlockUpTo, denseLayerForward_channels, ih]
    ring

/-- Claim C1: a dense layer concatenates the bn→relu→1x1-conv→bn→relu→3x3-conv
(→ optional dropout) result with its input, so its output has `C + g` channels
and its first `C` channels are the input unchanged; in a dense block the `i`-th
layer consumes `C0 + i*g` channels and the block's output has `C0 + N*g` channels. -/
theorem dense_layer_block_channel_growth (p : DenseLayerParams)
    (ps : ℕ → DenseLayerParams) (nf g bs N : ℕ) (dr : ℚ) (x : Tensor) :
    (denseLayerForward p nf g bs dr x).channels = x.channels + g
    ∧ (∀ b c h w, c < x.channels →
        (denseLayerForward p nf g bs dr x).data b c h w = x.data b c h w)
    ∧ (∀ b k h w, (denseLayerForward p nf g bs dr x).data b (x.channels + k) h w
        = (denseLayerNewFeatures p nf g bs dr x).data b k h w)
    ∧ (∀ i, (denseBlockUpTo ps nf bs g dr i x).channels = x.channels + i * g)
    ∧ (denseBlock ps nf bs g dr N x).channels = x.channels + N * g := by
  refine ⟨denseLayerForward_channels p nf g bs dr x, ?_, ?_, ?_, ?_⟩
  · intro b c h w hc
    simp [denseLayerForward, Tensor.cat, hc]
  · intro b k h w
    simp [denseLayerForward, Tensor.cat]
  · intro i
    exact denseBlockUpTo_channels ps nf bs g dr i x
  · exact denseBlockUpTo_channels ps nf bs g dr N x

/-- Parameters of a `_Transition` (lines 93-100): one batch norm and one 1x1
convolution weight.  The average pooling is commented out in `_Transition`
itself; the encoder adds it as a separate module. -/
structure TransitionParams where
  norm : BNParams
  conv : ConvW

/-- Semantics of `_Transition`: norm → relu → 1x1 convolution (stride 1, no bias). -/
noncomputable def transitionForward (p : TransitionParams) (inC outC : ℕ) (x : Tensor) :
    Tensor :=
  conv2d inC outC 1 1 0 p.conv (reluT (batchNorm2d p.norm x))

/-- Semantics of `center_crop` (lines 103-109): slice rows `xy2 .. xy2+max_height`
and columns `xy1 .. xy1+max_width` with `xy1 = (width - max_width) // 2` and
`xy2 = (height - max_height) // 2`; the `min` reflects Python slice clamping at
the upper end. -/
noncomputable def center_crop (layer : Tensor) (max_height max_width : ℕ) : Tensor :=
  let xy1 := (layer.width - max_width) / 2
  let xy2 := (layer.height - max_height) / 2
  { batch := layer.batch
    channels := layer.channels
    height := min (xy2 + max_height) layer.height - xy2
    width := min (xy1 + max_width) layer.width - xy1
    data := fun b c h w => layer.data b c (xy2 + h) (xy1 + w) }

/-- Modelled from the spec: `UpsampleBlock` is imported from `conv_blocks`, which is
not among the sources.  The spec says the transition-up "upsample[s] spatially";
it is modelled as factor-2 nearest-neighbour upsampling, preserving the channel
count (the constructor call `UpsampleBlock(num_features, num_features)` uses equal
input and output channel counts). -/
noncomputable def upsampleBlock (x : Tensor) : Tensor :=
  { x with
      height := 2 * x.height
      width := 2 * x.width
      data := fun b c h w => x.data b c (h / 2) (w / 2) }

@[simp] lemma upsampleBlock_batch (x : Tensor) : (upsampleBlock x).batch = x.batch := rfl

@[simp] lemma upsampleBlock_channels (x : Tensor) :
    (upsampleBlock x).channels = x.channels := rfl

@[simp] lemma upsampleBlock_height (x : Tensor) :
    (upsampleBlock x).height = 2 * x.height := rfl

@[simp] lemma upsampleBlock_width (x : Tensor) :
    (upsampleBlock x).width = 2 * x.width := rfl

@[simp] lemma transitionForward_channels (p : TransitionParams) (inC outC : ℕ)
    (x : Tensor) : (transitionForward p inC outC x).channels = outC := rfl

@[simp] lemma transitionForward_height (p : TransitionParams) (inC outC : ℕ)
    (x : Tensor) : (transitionForward p inC outC x).height = convOutDim x.height 1 1 0 := rfl

@[simp] lemma transitionForward_width (p : TransitionParams) (inC outC : ℕ)
    (x : Tensor) : (transitionForward p inC outC x).width = convOutDim x.width 1 1 0 := rfl

/-- Parameters of a `_TransitionUp` (lines 112-121): the two inner `_Transition`s. -/
structure TransitionUpParams where
  d_transition1 : TransitionParams
  d_transition2 : TransitionParams

/-- Semantics of `_TransitionUp.forward` (lines 123-130): transition to
`num_input_features // 2` channels, upsample, center-crop to the skip tensor's
spatial size, concatenate with the skip, then a final transition from
`num_input_features` to `num_output_features` channels. -/
noncomputable def transitionUpForward (p : TransitionUpParams)
    (num_input_features num_output_features : ℕ) (x skip : Tensor) : Tensor :=
  let out := upsampleBlock
    (transitionForward p.d_transition1 num_input_features (num_input_features / 2) x)
  let out := center_crop out skip.height skip.width
  let out := Tensor.cat out skip
  transitionForward p.d_transition2 num_input_features num_output_features out

lemma center_crop_height (x : Tensor) (mh mw : ℕ) (h : mh ≤ x.height) :
    (center_crop x mh mw).height = mh := by
  have hd : (x.height - mh) / 2 ≤ x.height - mh := Nat.div_le_self _ _
  simp only [center_crop]
  omega

lemma center_crop_width (x : Tensor) (mh mw : ℕ) (h : mw ≤ x.width) :
    (center_crop x mh mw).width = mw := by
  have hd : (x.width - mw) / 2 ≤ x.width - mw := Nat.div_le_self _ _
  simp only [center_crop]
  omega

/-- Claim C9: for `max_height ≤ H` and `max_width ≤ W`, `center_crop` returns a
(B, C, max_height, max_width) tensor whose entries are the contiguous centered
window of the input at offsets `(H - max_height) // 2` and `(W - max_width) // 2`,
with batch and channel dimensions untouched. -/
theorem center_crop_centered_window (x : Tensor) (mh mw : ℕ)
    (hh : mh ≤ x.height) (hw : mw ≤ x.width) :
    (center_crop x mh mw).batch = x.batch
    ∧ (center_crop x mh mw).channels = x.channels
    ∧ (center_crop x mh mw).height = mh
    ∧ (center_crop x mh mw).width = mw
    ∧ ∀ b c h w, (center_crop x mh mw).data b c h w
        = x.data b c ((x.height - mh) / 2 + h) ((x.width - mw) / 2 + w) := by
  refine ⟨rfl, rfl, center_crop_height x mh mw hh, center_crop_width x mh mw hw, ?_⟩
  intro b c h w
  rfl

/-- Witness for C9 on a concrete 1x1x4x6 tensor cropped to 2x4. -/
theorem center_crop_centered_window_witness :
    (center_crop (Tensor.mk 1 1 4 6 fun _ _ h w => (10 * h + w : ℝ)) 2 4).batch = 1
    ∧ (center_crop (Tensor.mk 1 1 4 6 fun _ _ h w => (10 * h + w : ℝ)) 2 4).channels = 1
    ∧ (center_crop (Tensor.mk 1 1 4 6 fun _ _ h w => (10 * h + w : ℝ)) 2 4).height = 2
    ∧ (center_crop (Tensor.mk 1 1 4 6 fun _ _ h w => (10 * h + w : ℝ)) 2 4).width = 4
    ∧ ∀ b c h w, (center_crop (Tensor.mk 1 1 4 6 fun _ _ h w => (10 * h + w : ℝ)) 2 4).data b c h w
        = (Tensor.mk 1 1 4 6 fun _ _ h w => (10 * h + w : ℝ)).data b c ((4 - 2) / 2 + h) ((6 - 4) / 2 + w) :=
  center_crop_centered_window (Tensor.mk 1 1 4 6 fun _ _ h w => (10 * h + w : ℝ)) 2 4
    (by decide) (by decide)

/-- Claim C6: `_TransitionUp` first halves the channel count of `x` via a
transition, upsamples spatially, center-crops to exactly the skip tensor's
height and width, concatenates with the skip along channels, and projects to the
target channel count with a second transition.  The exact-crop statement needs
the upsampled tensor to be at least as large as the skip. -/
theorem transition_up_structure (p : TransitionUpParams) (inC outC : ℕ)
    (x skip : Tensor) (hx : 0 < x.height) (hxw : 0 < x.width)
    (hh : skip.height ≤ 2 * x.height) (hw : skip.width ≤ 2 * x.width) :
    (transitionForward p.d_transition1 inC (inC / 2) x).channels = inC / 2
    ∧ (upsampleBlock (transitionForward p.d_transition1 inC (inC / 2) x)).height
        = 2 * x.height
    ∧ (upsampleBlock (transitionForward p.d_transition1 inC (inC / 2) x)).width
        = 2 * x.width
    ∧ (center_crop (upsampleBlock (transitionForward p.d_transition1 inC (inC / 2) x))
        skip.height skip.width).height = skip.height
    ∧ (center_crop (upsampleBlock (transitionForward p.d_transition1 inC (inC / 2) x))
        skip.height skip.width).width = skip.width
    ∧ (Tensor.cat (center_crop (upsampleBlock
          (transitionForward p.d_transition1 inC (inC / 2) x)) skip.height skip.width)
        skip).channels = inC / 2 + skip.channels
    ∧ transitionUpForward p inC outC x skip
        = transitionForward p.d_transition2 inC outC
            (Tensor.cat (center_crop (upsampleBlock
                (transitionForward p.d_transition1 inC (inC / 2) x)) skip.height skip.width)
              skip)
    ∧ (transitionUpForward p inC outC x skip).channels = outC := by
  have hub : (upsampleBlock (transitionForward p.d_transition1 inC (inC / 2) x)).height
      = 2 * x.height := by
    simp only [upsampleBlock_height, transitionForward_height, convOutDim]
    omega
  have huw : (upsampleBlock (transitionForward p.d_transition1 inC (inC / 2) x)).width
      = 2 * x.width := by
    simp only [upsampleBlock_width, transitionForward_width, convOutDim]
    omega
  refine ⟨rfl, hub, huw, ?_, ?_, rfl, rfl, rfl⟩
  · exact center_crop_height _ _ _ (hub ▸ hh)
  · exact center_crop_width _ _ _ (huw ▸ hw)

/-- A concrete batch-norm parameter set used in witnesses. -/
noncomputable def bn0 : BNParams := ⟨fun _ => 1, fun _ => 0, fun _ => 0, fun _ => 1⟩

/-- A concrete all-ones convolution weight used in witnesses. -/
noncomputable def cw0 : ConvW := fun _ _ _ _ => 1

/-- A concrete transition parameter set used in witnesses. -/
noncomputable def tp0 : TransitionParams := ⟨bn0, cw0⟩

/-- A concrete transition-up parameter set used in witnesses. -/
noncomputable def tup0 : TransitionUpParams := ⟨tp0, tp0⟩

/-- A concrete 1x4x3x3 tensor used in witnesses. -/
noncomputable def tX : Tensor := ⟨1, 4, 3, 3, fun _ _ _ _ => 1⟩

/-- A concrete 1x2x5x6 skip tensor used in witnesses. -/
noncomputable def tSkip : Tensor := ⟨1, 2, 5, 6, fun _ _ _ _ => 0⟩

/-- Witness for C6 at a concrete transition-up with 4 input channels, 2 output
channels, a 3x3 input and a 5x6 skip tensor. -/
theorem transition_up_structure_witness :
    (transitionForward tup0.d_transition1 4 (4 / 2) tX).channels = 4 / 2
    ∧ (center_crop (upsampleBlock (transitionForward tup0.d_transition1 4 (4 / 2) tX))
        tSkip.height tSkip.width).height = tSkip.height
    ∧ (center_crop (upsampleBlock (transitionForward tup0.d_transition1 4 (4 / 2) tX))
        tSkip.height tSkip.width).width = tSkip.width
    ∧ (transitionUpForward tup0 4 2 tX tSkip).channels = 2 := by
  have h := transition_up_structure tup0 4 2 tX tSkip (by decide) (by decide)
    (by decide) (by decide)
  exact ⟨h.1, h.2.2.2.1, h.2.2.2.2.1, h.2.2.2.2.2.2.2⟩

/-- The full parameter record of a `DenseUNet` (lines 146-235): the constructor
arguments (with the 4-tuple `block_config` spelled `n1 .. n4`, as `forward`
addresses exactly four dense blocks by name), the weights of the encoder stem,
dense blocks, transitions and final norm, the decoder blocks, and the weights of
the output heads.  The decoder blocks produced by the `get_decoder_block`
factory of `conv_blocks` are not among the sources, so `d_block i` (the module
named `d_block{i}`) and its semantic twin `d_block_sem i` are uninterpreted
functions on tensors. -/
structure DenseUNetP where
  input_nc : ℕ
  output_nc : ℕ
  growth_rate : ℕ
  n1 : ℕ
  n2 : ℕ
  n3 : ℕ
  n4 : ℕ
  num_init_features : ℕ
  bn_size : ℕ
  drop_rate : ℚ
  num_classes : ℕ
  use_skips : Bool
  bilinear_trick : Bool
  outputSize : ℕ × ℕ
  use_semantics : Bool
  conv0_w : ConvW
  norm0 : BNParams
  downconv0_w : ConvW
  norm1 : BNParams
  blockParams : ℕ → ℕ → DenseLayerParams
  transParams : ℕ → TransitionParams
  norm5 : BNParams
  d_block : ℕ → Tensor → Tensor
  d_block_sem : ℕ → Tensor → Tensor
  last_conv_w : ConvW
  last_conv_sem_w : ConvW
  up_conv_w : ConvW

/-- Channel count after `denseblock1`: `num_init_features + n1 * growth_rate`
(line 183). -/
def nfB1 (P : DenseUNetP) : ℕ := P.num_init_features + P.n1 * P.growth_rate

/-- Channel count after `transition1`: floor halving (lines 185-188). -/
def nfT1 (P : DenseUNetP) : ℕ := nfB1 P / 2

/-- Channel count after `denseblock2`. -/
def nfB2 (P : DenseUNetP) : ℕ := nfT1 P + P.n2 * P.growth_rate

/-- Channel count after `transition2`. -/
def nfT2 (P : DenseUNetP) : ℕ := nfB2 P / 2

/-- Channel count after `denseblock3`. -/
def nfB3 (P : DenseUNetP) : ℕ := nfT2 P + P.n3 * P.growth_rate

/-- Channel count after `transition3`. -/
def nfT3 (P : DenseUNetP) : ℕ := nfB3 P / 2

/-- Channel count after `denseblock4` (the encoder bottleneck). -/
def nfB4 (P : DenseUNetP) : ℕ := nfT3 P + P.n4 * P.growth_rate

/-- The running `num_features` after the four decoder loop iterations
(lines 200-212): four successive floor halvings of the bottleneck count.
`d_block1` keeps this count and `last_conv` consumes it (lines 214-223). -/
def decFeat (P : DenseUNetP) : ℕ := nfB4 P / 2 / 2 / 2 / 2

/-- Modelled from the spec: `conv3x3` is imported from `conv_blocks`, which is not
among the sources; following its name and the spec's "refinement convolution" it
is modelled as a 3x3 convolution with stride 1 and padding 1 (bias omitted; no
claim depends on the bias). -/
noncomputable def conv3x3 (inC outC : ℕ) (w : ConvW) (x : Tensor) : Tensor :=
  conv2d inC outC 3 1 1 w x

/-- The stem activation `out_conv1` (lines 251-253): conv0 (7x7, stride 2,
padding 3) → norm0 → relu0, where relu0 is the shared `LeakyReLU(0.2)`. -/
noncomputable def outConv1 (P : DenseUNetP) (x : Tensor) : Tensor :=
  leakyRelu (batchNorm2d P.norm0 (conv2d P.input_nc P.num_init_features 7 2 3 P.conv0_w x))

/-- The stem output (lines 255-257): downconv0 (4x4, stride 2, padding 1) →
norm1 → relu1. -/
noncomputable def stemOut (P : DenseUNetP) (x : Tensor) : Tensor :=
  leakyRelu (batchNorm2d P.norm1
    (conv2d P.num_init_features P.num_init_features 4 2 1 P.downconv0_w (outConv1 P x)))

/-- Output of `denseblock1` (line 260). -/
noncomputable def db1out (P : DenseUNetP) (x : Tensor) : Tensor :=
  denseBlock (P.blockParams 0) P.num_init_features P.bn_size P.growth_rate P.drop_rate
    P.n1 (stemOut P x)

/-- The retained tensor `tb_denseblock1 = transition1(out)` (line 262). -/
noncomputable def tb1 (P : DenseUNetP) (x : Tensor) : Tensor :=
  transitionForward (P.transParams 0) (nfB1 P) (nfT1 P) (db1out P x)

/-- Output of `transition1pool` (line 264). -/
noncomputable def pool1 (P : DenseUNetP) (x : Tensor) : Tensor := avgPool2d 2 2 (tb1 P x)

/-- Output of `denseblock2` (line 266). -/
noncomputable def db2out (P : DenseUNetP) (x : Tensor) : Tensor :=
  denseBlock (P.blockParams 1) (nfT1 P) P.bn_size P.growth_rate P.drop_rate P.n2 (pool1 P x)

/-- The retained tensor `tb_denseblock2 = transition2(out)` (line 268). -/
noncomputable def tb2 (P : DenseUNetP) (x : Tensor) : Tensor :=
  transitionForward (P.transParams 1) (nfB2 P) (nfT2 P) (db2out P x)

/-- Output of `transition2pool` (line 270). -/
noncomputable def pool2 (P : DenseUNetP) (x : Tensor) : Tensor := avgPool2d 2 2 (tb2 P x)

/-- Output of `denseblock3` (line 272). -/
noncomputable def db3out (P : DenseUNetP) (x : Tensor) : Tensor :=
  denseBlock (P.blockParams 2) (nfT2 P) P.bn_size P.growth_rate P.drop_rate P.n3 (pool2 P x)

/-- The retained tensor `tb_denseblock3 = transition3(out)` (line 274). -/
noncomputable def tb3 (P : DenseUNetP) (x : Tensor) : Tensor :=
  transitionForward (P.transParams 2) (nfB3 P) (nfT3 P) (db3out P x)

/-- Output of `transition3pool` (line 276). -/
noncomputable def pool3 (P : DenseUNetP) (x : Tensor) : Tensor := avgPool2d 2 2 (tb3 P x)

/-- Output of `denseblock4` (line 278). -/
noncomputable def db4out (P : DenseUNetP) (x : Tensor) : Tensor :=
  denseBlock (P.blockParams 3) (nfT3 P) P.bn_size P.growth_rate P.drop_rate P.n4 (pool3 P x)

/-- The encoder bottleneck (lines 280-281): norm5 then the shared LeakyReLU. -/
noncomputable def bottleneck (P : DenseUNetP) (x : Tensor) : Tensor :=
  leakyRelu (batchNorm2d P.norm5 (db4out P x))

/-- Semantics of `DenseUNet.get_decoder_input` (lines 242-246): with skips,
concatenate the encoder tensor with the decoder tensor along channels. -/
noncomputable def getDecoderInput (use_skips : Bool) (e_out d_out : Tensor) : Tensor :=
  if use_skips then Tensor.cat e_out d_out else d_out

/-- The tensor `forward` feeds to `d_block5` (line 285): the encoder bottleneck
directly, with no `get_decoder_input` and no skip concatenation. -/
noncomputable def dIn5 (P : DenseUNetP) (x : Tensor) : Tensor := bottleneck P x

/-- Output of `d_block5` (line 285). -/
noncomputable def dOut5 (P : DenseUNetP) (x : Tensor) : Tensor := P.d_block 5 (dIn5 P x)

/-- Input to `d_block4` (line 287). -/
noncomputable def dIn4 (P : DenseUNetP) (x : Tensor) : Tensor :=
  getDecoderInput P.use_skips (tb3 P x) (dOut5 P x)

/-- Output of `d_block4` (line 287). -/
noncomputable def dOut4 (P : DenseUNetP) (x : Tensor) : Tensor := P.d_block 4 (dIn4 P x)

/-- Input to `d_block3` (line 289). -/
noncomputable def dIn3 (P : DenseUNetP) (x : Tensor) : Tensor :=
  getDecoderInput P.use_skips (tb2 P x) (dOut4 P x)

/-- The tensor `out_d3` (line 289), shared by the regression and semantic paths. -/
noncomputable def dOut3 (P : DenseUNetP) (x : Tensor) : Tensor := P.d_block 3 (dIn3 P x)

/-- Input to `d_block2` (line 291), also the input to `decoder_sem.d_block2`
(line 303). -/
noncomputable def dIn2 (P : DenseUNetP) (x : Tensor) : Tensor :=
  getDecoderInput P.use_skips (tb1 P x) (dOut3 P x)

/-- The tensor `out_reg_d2` (line 291). -/
noncomputable def dOut2 (P : DenseUNetP) (x : Tensor) : Tensor := P.d_block 2 (dIn2 P x)

/-- Input to `d_block1` (line 293). -/
noncomputable def dIn1 (P : DenseUNetP) (x : Tensor) : Tensor :=
  getDecoderInput P.use_skips (outConv1 P x) (dOut2 P x)

/-- The tensor `out_reg_d1` (line 293). -/
noncomputable def dOut1 (P : DenseUNetP) (x : Tensor) : Tensor := P.d_block 1 (dIn1 P x)

/-- The tensor `out_reg_last = last_conv(out_reg_d1)` (line 295). -/
noncomputable def outRegLast (P : DenseUNetP) (x : Tensor) : Tensor :=
  conv3x3 (decFeat P) P.output_nc P.last_conv_w (dOut1 P x)

/-- The regression output `out_reg = Tanh(out_reg_last)` (line 299). -/
noncomputable def outReg (P : DenseUNetP) (x : Tensor) : Tensor := tanhT (outRegLast P x)

/-- The tensor `out_sem_d2` (line 303): the semantic decoder's `d_block2` applied
to `get_decoder_input(tb_denseblock1, out_d3)` — the same input as the
regression `d_block2`, hence downstream of the regression decoder's `d_block3`. -/
noncomputable def outSemD2 (P : DenseUNetP) (x : Tensor) : Tensor :=
  P.d_block_sem 2 (dIn2 P x)

/-- The tensor `out_sem_d1` (line 305). -/
noncomputable def outSemD1 (P : DenseUNetP) (x : Tensor) : Tensor :=
  P.d_block_sem 1 (getDecoderInput P.use_skips (outConv1 P x) (outSemD2 P x))

/-- The semantic logits `out_sem_last = last_conv_sem(out_sem_d1)` (line 307). -/
noncomputable def outSemLast (P : DenseUNetP) (x : Tensor) : Tensor :=
  conv3x3 (decFeat P) P.num_classes P.last_conv_sem_w (outSemD1 P x)

/-- Source coordinate of bilinear interpolation with `align_corners=False` (the
`nn.Upsample(mode='bilinear')` default): `(i + 0.5) * (in/out) - 0.5`, clamped
below at 0. -/
noncomputable def biSrc (inN outN i : ℕ) : ℝ :=
  max 0 ((((i : ℝ) + 1 / 2) * ((inN : ℝ) / (outN : ℝ))) - 1 / 2)

/-- Semantics of `nn.Upsample(size, mode='bilinear')`: resize to the given
spatial size by bilinear interpolation. -/
noncomputable def upsampleBilinear (oh ow : ℕ) (x : Tensor) : Tensor where
  batch := x.batch
  channels := x.channels
  height := oh
  width := ow
  data b c i j :=
    let sy := biSrc x.height oh i
    let sx := biSrc x.width ow j
    let y0 := (⌊sy⌋).toNat
    let y1 := min (y0 + 1) (x.height - 1)
    let fy := sy - (y0 : ℝ)
    let x0 := (⌊sx⌋).toNat
    let x1 := min (x0 + 1) (x.width - 1)
    let fx := sx - (x0 : ℝ)
    (1 - fy) * ((1 - fx) * x.data b c y0 x0 + fx * x.data b c y0 x1)
      + fy * ((1 - fx) * x.data b c y1 x0 + fx * x.data b c y1 x1)

/-- The orientation normalization of `outputSize` (line 230): swap the pair when
the first component exceeds the second. -/
def effOutputSize (P : DenseUNetP) : ℕ × ℕ :=
  if P.outputSize.1 > P.outputSize.2 then (P.outputSize.2, P.outputSize.1) else P.outputSize

/-- Semantics of the `self.upsample` module (lines 231-233): bilinear resize to
the normalized output size followed by a `conv3x3(output_nc, output_nc)`. -/
noncomputable def upsampleStage (P : DenseUNetP) (t : Tensor) : Tensor :=
  conv3x3 P.output_nc P.output_nc P.up_conv_w
    (upsampleBilinear (effOutputSize P).1 (effOutputSize P).2 t)

/-- Semantics of `DenseUNet.forward` (lines 248-314).  When `bilinear_trick` is
set, line 298 applies `self.upsample` to the variable `out` — whose last
assignment was the `d_block4` output on line 287 — and the result is never used
afterwards; the `_dead` binding mirrors that dead store.  The function returns
the pair `(out_reg, out_sem_last)` when `use_semantics` is set and `out_reg`
alone otherwise (lines 311-314). -/
noncomputable def forward (P : DenseUNetP) (x : Tensor) : Tensor ⊕ Tensor × Tensor :=
  let _dead := if P.bilinear_trick then upsampleStage P (dOut4 P x) else dOut4 P x
  if P.use_semantics then Sum.inr (outReg P x, outSemLast P x) else Sum.inl (outReg P x)

/-- The encoder tensors `forward` passes as the `e_out` argument of
`get_decoder_input`, in order of use (lines 287, 289, 291, 293). -/
noncomputable def forwardSkipArgs (P : DenseUNetP) (x : Tensor) : List Tensor :=
  [tb3 P x, tb2 P x, tb1 P x, outConv1 P x]

lemma real_tanh_lt_one (v : ℝ) : Real.tanh v < 1 := by
  rw [Real.tanh_eq_sinh_div_cosh, div_lt_one (Real.cosh_pos v)]
  exact Real.sinh_lt_cosh v

lemma neg_one_lt_real_tanh (v : ℝ) : -1 < Real.tanh v := by
  rw [Real.tanh_eq_sinh_div_cosh, lt_div_iff₀ (Real.cosh_pos v)]
  have h : Real.sinh (-v) < Real.cosh (-v) := Real.sinh_lt_cosh (-v)
  rw [Real.sinh_neg, Real.cosh_neg] at h
  linarith

/-- Claim C5: the regression output returned by `forward` is the elementwise
hyperbolic tangent of the final 3x3 convolution's output (`out_reg =
Tanh(last_conv(out_reg_d1))`, lines 295-299), so every element of the returned
regression tensor lies in [-1, 1]. -/
theorem forward_regression_tanh_bounded (P : DenseUNetP) (x : Tensor) (b c h w : ℕ) :
    forward P x = (if P.use_semantics then Sum.inr (outReg P x, outSemLast P x)
                   else Sum.inl (outReg P x))
    ∧ outReg P x = tanhT (outRegLast P x)
    ∧ (outReg P x).data b c h w = Real.tanh ((outRegLast P x).data b c h w)
    ∧ -1 ≤ (outReg P x).data b c h w
    ∧ (outReg P x).data b c h w ≤ 1 := by
  refine ⟨rfl, rfl, rfl, ?_, ?_⟩
  · exact le_of_lt (neg_one_lt_real_tanh ((outRegLast P x).data b c h w))
  · exact le_of_lt (real_tanh_lt_one ((outRegLast P x).data b c h w))

/-- Claim C10: `forward` returns the pair `(out_reg, out_sem_last)` exactly when
the model was constructed with `use_semantics=True`, and the single regression
tensor `out_reg` otherwise (lines 311-314). -/
theorem forward_return_shape (P : DenseUNetP) (x : Tensor) :
    (forward P x = Sum.inr (outReg P x, outSemLast P x) ↔ P.use_semantics = true)
    ∧ (forward P x = Sum.inl (outReg P x) ↔ P.use_semantics = false)
    ∧ ((∃ r s, forward P x = Sum.inr (r, s)) ↔ P.use_semantics = true) := by
  cases h : P.use_semantics with
  | false => simp [forward, h]
  | true =>
    refine ⟨by simp [forward, h], by simp [forward, h], ?_, ?_⟩
    · exact fun _ => rfl
    · exact fun _ => ⟨outReg P x, outSemLast P x, by simp [forward, h]⟩

lemma denseBlockUpTo_height (ps : ℕ → DenseLayerParams) (nf bs g : ℕ) (dr : ℚ)
    (j : ℕ) (x : Tensor) : (denseBlockUpTo ps nf bs g dr j x).height = x.height := by
  induction j with
  | zero => rfl
  | succ n ih => simpa [denseBlockUpTo, denseLayerForward] using ih

lemma denseBlockUpTo_width (ps : ℕ → DenseLayerParams) (nf bs g : ℕ) (dr : ℚ)
    (j : ℕ) (x : Tensor) : (denseBlockUpTo ps nf bs g dr j x).width = x.width := by
  induction j with
  | zero => rfl
  | succ n ih => simpa [denseBlockUpTo, denseLayerForward] using ih

/-- A concrete dense-layer parameter set used in concrete models. -/
noncomputable def dlp0 : DenseLayerParams := ⟨bn0, cw0, bn0, cw0⟩

/-- A concrete DenseUNet parameter record: a 1-channel input, one layer per dense
block, growth rate 1, one initial feature, skips enabled, no semantic head, no
bilinear trick, identity decoder blocks. -/
noncomputable def P0 : DenseUNetP where
  input_nc := 1
  output_nc := 1
  growth_rate := 1
  n1 := 1
  n2 := 1
  n3 := 1
  n4 := 1
  num_init_features := 1
  bn_size := 1
  drop_rate := 0
  num_classes := 1
  use_skips := true
  bilinear_trick := false
  outputSize := (427, 571)
  use_semantics := false
  conv0_w := cw0
  norm0 := bn0
  downconv0_w := cw0
  norm1 := bn0
  blockParams := fun _ _ => dlp0
  transParams := fun _ => tp0
  norm5 := bn0
  d_block := fun _ t => t
  d_block_sem := fun _ t => t
  last_conv_w := cw0
  last_conv_sem_w := cw0
  up_conv_w := cw0

/-- A concrete 1x1x32x32 input tensor. -/
noncomputable def x0 : Tensor := ⟨1, 1, 32, 32, fun _ _ _ _ => 0⟩

/-- Counterexample to claim C3 as stated: `forward` applies `get_decoder_input`
(skip concatenation) before only four of the five decoder blocks.  The first
decoder block `d_block5` receives the encoder bottleneck directly (line 285);
at a concrete model its input has the bottleneck's 2 channels, while a skip
concatenation with the nearest retained encoder tensor would have 3. -/
theorem decoder_first_block_no_skip_concat :
    (forwardSkipArgs P0 x0).length = 4
    ∧ dIn5 P0 x0 = bottleneck P0 x0
    ∧ (dIn5 P0 x0).channels = 2
    ∧ (Tensor.cat (tb3 P0 x0) (bottleneck P0 x0)).channels = 3
    ∧ (Tensor.cat (tb3 P0 x0) (bottleneck P0 x0)).channels ≠ (dIn5 P0 x0).channels := by
  refine ⟨rfl, rfl, by decide, by decide, by decide⟩

/-- Claim C3 amended: the decoder applies five blocks in sequence; the first
(deepest) block consumes the encoder bottleneck directly, and each of the
remaining four consumes the previous decoder output concatenated along channels
with the corresponding encoder skip tensor (when skips are enabled); with
decoder blocks that double the spatial size (their `conv_blocks` implementation
is not among the sources; the spec says they upsample), the resolutions double
back up to the input resolution. -/
theorem decoder_block_wiring_amended (P : DenseUNetP) (x : Tensor)
    (hskip : P.use_skips = true)
    (hup : ∀ i t, (P.d_block i t).height = 2 * t.height
            ∧ (P.d_block i t).width = 2 * t.width)
    (hdvd : 2 ∣ x.height) (hpos : 0 < x.height) :
    dIn5 P x = bottleneck P x
    ∧ dIn4 P x = Tensor.cat (tb3 P x) (dOut5 P x)
    ∧ dIn3 P x = Tensor.cat (tb2 P x) (dOut4 P x)
    ∧ dIn2 P x = Tensor.cat (tb1 P x) (dOut3 P x)
    ∧ dIn1 P x = Tensor.cat (outConv1 P x) (dOut2 P x)
    ∧ (dOut5 P x).height = 2 * (bottleneck P x).height
    ∧ (dOut4 P x).height = 2 * (tb3 P x).height
    ∧ (dOut3 P x).height = 2 * (tb2 P x).height
    ∧ (dOut2 P x).height = 2 * (tb1 P x).height
    ∧ (dOut1 P x).height = 2 * (outConv1 P x).height
    ∧ (dOut1 P x).height = x.height := by
  have e4 : dIn4 P x = Tensor.cat (tb3 P x) (dOut5 P x) := by
    simp [dIn4, getDecoderInput, hskip]
  have e3 : dIn3 P x = Tensor.cat (tb2 P x) (dOut4 P x) := by
    simp [dIn3, getDecoderInput, hskip]
  have e2 : dIn2 P x = Tensor.cat (tb1 P x) (dOut3 P x) := by
    simp [dIn2, getDecoderInput, hskip]
  have e1 : dIn1 P x = Tensor.cat (outConv1 P x) (dOut2 P x) := by
    simp [dIn1, getDecoderInput, hskip]
  have h5 : (dOut5 P x).height = 2 * (bottleneck P x).height := (hup 5 _).1
  have h4 : (dOut4 P x).height = 2 * (tb3 P x).height := by
    simp only [dOut4, e4]
    simpa using (hup 4 (Tensor.cat (tb3 P x) (dOut5 P x))).1
  have h3 : (dOut3 P x).height = 2 * (tb2 P x).height := by
    simp only [dOut3, e3]
    simpa using (hup 3 (Tensor.cat (tb2 P x) (dOut4 P x))).1
  have h2 : (dOut2 P x).height = 2 * (tb1 P x).height := by
    simp only [dOut2, e2]
    simpa using (hup 2 (Tensor.cat (tb1 P x) (dOut3 P x))).1
  have h1 : (dOut1 P x).height = 2 * (outConv1 P x).height := by
    simp only [dOut1, e1]
    simpa using (hup 1 (Tensor.cat (outConv1 P x) (dOut2 P x))).1
  refine ⟨rfl, e4, e3, e2, e1, h5, h4, h3, h2, h1, ?_⟩
  have hc : (outConv1 P x).height = (x.height + 2 * 3 - 7) / 2 + 1 := by
    simp [outConv1, convOutDim]
  rw [h1, hc]
  omega

/-- A concrete model whose uninterpreted decoder blocks double height and width. -/
noncomputable def Pup : DenseUNetP :=
  { P0 with d_block := fun _ t => { t with height := 2 * t.height, width := 2 * t.width } }

/-- Witness for the amended C3 at a concrete model with spatially doubling
decoder blocks and a 32x32 input. -/
theorem decoder_block_wiring_amended_witness :
    dIn4 Pup x0 = Tensor.cat (tb3 Pup x0) (dOut5 Pup x0)
    ∧ dIn1 Pup x0 = Tensor.cat (outConv1 Pup x0) (dOut2 Pup x0)
    ∧ (dOut1 Pup x0).height = x0.height := by
  have h := decoder_block_wiring_amended Pup x0 rfl (fun i t => ⟨rfl, rfl⟩)
    (by decide) (by decide)
  exact ⟨h.2.1, h.2.2.2.2.1, h.2.2.2.2.2.2.2.2.2.2⟩

/-- A concrete model with the semantic head enabled, identity regression decoder
blocks, and a semantic decoder whose `d_block1` stores its input's channel count
in the height field (the decoder blocks are uninterpreted functions, so any
concrete choice is a valid instantiation). -/
noncomputable def PSem : DenseUNetP :=
  { P0 with
      use_semantics := true
      d_block_sem := fun i t => if i = 1 then { t with height := t.channels } else t }

/-- A regression decoder that differs from the identity only by adding a channel. -/
noncomputable def dbWide : ℕ → Tensor → Tensor :=
  fun _ t => { t with channels := t.channels + 1 }

/-- Counterexample to claim C7 as stated: the semantic output is computed from
`out_d3`, the output of the regression decoder's `d_block3` (lines 289 and 303),
so it is not invariant under changes to the regression decoder's parameters.
Here two models share all fields except the regression decoder blocks, yet
their semantic outputs differ (already in height). -/
theorem semantic_head_shares_regression_decoder :
    (outSemLast PSem x0).height = 6
    ∧ (outSemLast { PSem with d_block := dbWide } x0).height = 9
    ∧ outSemLast PSem x0 ≠ outSemLast { PSem with d_block := dbWide } x0 := by
  refine ⟨by decide, by decide, fun h => absurd (congrArg Tensor.height h) (by decide)⟩

/-- Claim C7 amended: the semantic path shares the encoder features and the three
deepest regression decoder blocks (`d_block5`, `d_block4`, `d_block3`, through
the shared tensor `out_d3`); for fixed encoder, fixed semantic decoder, and
fixed regression `d_block5/4/3`, changing the rest of the regression decoder
(`d_block2`, `d_block1`, `last_conv`) leaves the semantic output unchanged. -/
theorem semantic_head_partial_independence (P : DenseUNetP)
    (db' : ℕ → Tensor → Tensor) (lw' : ConvW) (x : Tensor)
    (h5 : db' 5 = P.d_block 5) (h4 : db' 4 = P.d_block 4) (h3 : db' 3 = P.d_block 3) :
    outSemLast { P with d_block := db', last_conv_w := lw' } x = outSemLast P x := by
  simp only [outSemLast, outSemD1, outSemD2, dIn2, dOut3, dIn3, dOut4, dIn4, dOut5, dIn5,
    h5, h4, h3]
  rfl

/-- A regression decoder equal to `PSem`'s on blocks 3, 4, 5 but different on
blocks 1 and 2. -/
noncomputable def dbShallowChange : ℕ → Tensor → Tensor :=
  fun i t => if i ≤ 2 then { t with width := t.width + 7 } else t

/-- Witness for the amended C7: changing only the shallow part of the regression
decoder (blocks 1-2 and the last convolution weight) leaves the semantic output
of the concrete model unchanged. -/
theorem semantic_head_partial_independence_witness :
    outSemLast { PSem with d_block := dbShallowChange, last_conv_w := fun _ _ _ _ => 0 } x0
      = outSemLast PSem x0 := by
  refine semantic_head_partial_independence PSem dbShallowChange (fun _ _ _ _ => 0) x0
    ?_ ?_ ?_ <;> funext t <;> simp [dbShallowChange, PSem, P0]

/-- One module of the encoder `self.features` sequence, with its parameters. -/
inductive EncItem where
  | conv (inC outC k s p : ℕ) (w : ConvW)
  | batchnorm (c : ℕ) (p : BNParams)
  | lrelu
  | denseblock (numLayers inC bnSize growth : ℕ) (dr : ℚ) (ps : ℕ → DenseLayerParams)
  | transition (inC outC : ℕ) (p : TransitionParams)
  | avgpool (k s : ℕ)

/-- Tensor semantics of one encoder module. -/
noncomputable def EncItem.apply : EncItem → Tensor → Tensor
  | .conv inC outC k s p w, t => conv2d inC outC k s p w t
  | .batchnorm _ p, t => batchNorm2d p t
  | .lrelu, t => leakyRelu t
  | .denseblock n nf bs g dr ps, t => denseBlock ps nf bs g dr n t
  | .transition inC outC p, t => transitionForward p inC outC t
  | .avgpool k s, t => avgPool2d k s t

/-- The dense-block loop of `DenseUNet.__init__` (lines 176-188): for each entry
of `block_config` add a dense block; after every entry except the last add a
transition halving the channel count (floor) and a 2x2 stride-2 average pooling. -/
noncomputable def encLoop (g bs : ℕ) (dr : ℚ) (bps : ℕ → ℕ → DenseLayerParams)
    (tps : ℕ → TransitionParams) : List ℕ → ℕ → ℕ → List EncItem
  | [], _, _ => []
  | n :: rest, i, nf =>
    let nfb := nf + n * g
    if rest = [] then
      EncItem.denseblock n nf bs g dr (bps i) :: encLoop g bs dr bps tps rest (i + 1) nfb
    else
      EncItem.denseblock n nf bs g dr (bps i)
        :: EncItem.transition nfb (nfb / 2) (tps i)
        :: EncItem.avgpool 2 2
        :: encLoop g bs dr bps tps rest (i + 1) (nfb / 2)

/-- The full `self.features` sequence built by `DenseUNet.__init__` (lines
164-191): the stem (conv0, norm0, relu0, downconv0, norm1, relu1), the
dense-block loop over `block_config = (n1, n2, n3, n4)`, and the final norm5. -/
noncomputable def mkFeatures (P : DenseUNetP) : List EncItem :=
  [EncItem.conv P.input_nc P.num_init_features 7 2 3 P.conv0_w,
   EncItem.batchnorm P.num_init_features P.norm0,
   EncItem.lrelu,
   EncItem.conv P.num_init_features P.num_init_features 4 2 1 P.downconv0_w,
   EncItem.batchnorm P.num_init_features P.norm1,
   EncItem.lrelu]
  ++ encLoop P.growth_rate P.bn_size P.drop_rate P.blockParams P.transParams
       [P.n1, P.n2, P.n3, P.n4] 0 P.num_init_features
  ++ [EncItem.batchnorm (nfB4 P) P.norm5]

/-- Apply an encoder module list in order (`nn.Sequential` semantics). -/
noncomputable def encApply (items : List EncItem) (x : Tensor) : Tensor :=
  items.foldl (fun t it => it.apply t) x

/-- Claim C2: in the encoder built by `__init__`, a transition (norm → relu →
1x1 convolution halving the channel count with integer floor) followed by a 2x2
stride-2 average pooling (which halves the spatial resolution) is inserted
after each of the first three dense blocks and not after the fourth. -/
theorem encoder_transition_pool_placement (P : DenseUNetP) (t : Tensor)
    (th : 2 ≤ t.height) (tw : 2 ≤ t.width) (p : TransitionParams) (inC : ℕ) (y : Tensor) :
    mkFeatures P =
      [EncItem.conv P.input_nc P.num_init_features 7 2 3 P.conv0_w,
       EncItem.batchnorm P.num_init_features P.norm0,
       EncItem.lrelu,
       EncItem.conv P.num_init_features P.num_init_features 4 2 1 P.downconv0_w,
       EncItem.batchnorm P.num_init_features P.norm1,
       EncItem.lrelu,
       EncItem.denseblock P.n1 P.num_init_features P.bn_size P.growth_rate P.drop_rate
         (P.blockParams 0),
       EncItem.transition (nfB1 P) (nfT1 P) (P.transParams 0),
       EncItem.avgpool 2 2,
       EncItem.denseblock P.n2 (nfT1 P) P.bn_size P.growth_rate P.drop_rate
         (P.blockParams 1),
       EncItem.transition (nfB2 P) (nfT2 P) (P.transParams 1),
       EncItem.avgpool 2 2,
       EncItem.denseblock P.n3 (nfT2 P) P.bn_size P.growth_rate P.drop_rate
         (P.blockParams 2),
       EncItem.transition (nfB3 P) (nfT3 P) (P.transParams 2),
       EncItem.avgpool 2 2,
       EncItem.denseblock P.n4 (nfT3 P) P.bn_size P.growth_rate P.drop_rate
         (P.blockParams 3),
       EncItem.batchnorm (nfB4 P) P.norm5]
    ∧ transitionForward p inC (inC / 2) y
        = conv2d inC (inC / 2) 1 1 0 p.conv (reluT (batchNorm2d p.norm y))
    ∧ (transitionForward p inC (inC / 2) y).channels = inC / 2
    ∧ (avgPool2d 2 2 t).height = t.height / 2
    ∧ (avgPool2d 2 2 t).width = t.width / 2 := by
  refine ⟨rfl, rfl, rfl, ?_, ?_⟩
  · simp only [avgPool2d_height]
    omega
  · simp only [avgPool2d_width]
    omega

/-- Witness for C2 at the concrete model `P0` and a concrete 32x32 tensor. -/
theorem encoder_transition_pool_placement_witness :
    mkFeatures P0 =
      [EncItem.conv P0.input_nc P0.num_init_features 7 2 3 P0.conv0_w,
       EncItem.batchnorm P0.num_init_features P0.norm0,
       EncItem.lrelu,
       EncItem.conv P0.num_init_features P0.num_init_features 4 2 1 P0.downconv0_w,
       EncItem.batchnorm P0.num_init_features P0.norm1,
       EncItem.lrelu,
       EncItem.denseblock P0.n1 P0.num_init_features P0.bn_size P0.growth_rate P0.drop_rate
         (P0.blockParams 0),
       EncItem.transition (nfB1 P0) (nfT1 P0) (P0.transParams 0),
       EncItem.avgpool 2 2,
       EncItem.denseblock P0.n2 (nfT1 P0) P0.bn_size P0.growth_rate P0.drop_rate
         (P0.blockParams 1),
       EncItem.transition (nfB2 P0) (nfT2 P0) (P0.transParams 1),
       EncItem.avgpool 2 2,
       EncItem.denseblock P0.n3 (nfT2 P0) P0.bn_size P0.growth_rate P0.drop_rate
         (P0.blockParams 2),
       EncItem.transition (nfB3 P0) (nfT3 P0) (P0.transParams 2),
       EncItem.avgpool 2 2,
       EncItem.denseblock P0.n4 (nfT3 P0) P0.bn_size P0.growth_rate P0.drop_rate
         (P0.blockParams 3),
       EncItem.batchnorm (nfB4 P0) P0.norm5]
    ∧ transitionForward tp0 10 (10 / 2) x0
        = conv2d 10 (10 / 2) 1 1 0 tp0.conv (reluT (batchNorm2d tp0.norm x0))
    ∧ (transitionForward tp0 10 (10 / 2) x0).channels = 10 / 2
    ∧ (avgPool2d 2 2 x0).height = x0.height / 2
    ∧ (avgPool2d 2 2 x0).width = x0.width / 2 :=
  encoder_transition_pool_placement P0 x0 (by decide) (by decide) tp0 10 x0

/-- Counterexample to claim C8 as stated: the decoder consumes four encoder
tensors through `get_decoder_input`, not three — the three transition outputs
`tb_denseblock3/2/1` and additionally the stem activation `out_conv1`
(lines 287, 289, 291, 293). -/
theorem encoder_retains_four_skips_not_three :
    forwardSkipArgs P0 x0 = [tb3 P0 x0, tb2 P0 x0, tb1 P0 x0, outConv1 P0 x0]
    ∧ (forwardSkipArgs P0 x0).length = 4
    ∧ (forwardSkipArgs P0 x0).length ≠ 3 :=
  ⟨rfl, rfl, by decide⟩

/-- Claim C8 amended: the encoder applies the stem followed by four dense blocks
interleaved with three transition+pool pairs (the `mkFeatures` list, whose fold
is exactly the encoder computation `forward` performs up to the bottleneck), the
four dense-block outputs sit at strictly decreasing spatial resolutions, and
exactly four encoder tensors are retained for the decoder: the three transition
outputs and the stem activation. -/
theorem encoder_structure_and_skips (P : DenseUNetP) (x : Tensor)
    (hh : 32 ≤ x.height) (hw : 32 ≤ x.width) :
    bottleneck P x = leakyRelu (encApply (mkFeatures P) x)
    ∧ forwardSkipArgs P x = [tb3 P x, tb2 P x, tb1 P x, outConv1 P x]
    ∧ (forwardSkipArgs P x).length = 4
    ∧ x.height > (db1out P x).height
    ∧ (db1out P x).height > (db2out P x).height
    ∧ (db2out P x).height > (db3out P x).height
    ∧ (db3out P x).height > (db4out P x).height
    ∧ x.width > (db1out P x).width
    ∧ (db1out P x).width > (db2out P x).width
    ∧ (db2out P x).width > (db3out P x).width
    ∧ (db3out P x).width > (db4out P x).width := by
  have hoc : (outConv1 P x).height = (x.height + 6 - 7) / 2 + 1 := rfl
  have hst : (stemOut P x).height = ((outConv1 P x).height + 2 - 4) / 2 + 1 := rfl
  have hd1 : (db1out P x).height = (stemOut P x).height :=
    denseBlockUpTo_height _ _ _ _ _ _ _
  have ht1 : (tb1 P x).height = ((db1out P x).height - 1) / 1 + 1 := rfl
  have hp1 : (pool1 P x).height = ((tb1 P x).height - 2) / 2 + 1 := rfl
  have hd2 : (db2out P x).height = (pool1 P x).height :=
    denseBlockUpTo_height _ _ _ _ _ _ _
  have ht2 : (tb2 P x).height = ((db2out P x).height - 1) / 1 + 1 := rfl
  have hp2 : (pool2 P x).height = ((tb2 P x).height - 2) / 2 + 1 := rfl
  have hd3 : (db3out P x).height = (pool2 P x).height :=
    denseBlockUpTo_height _ _ _ _ _ _ _
  have ht3 : (tb3 P x).height = ((db3out P x).height - 1) / 1 + 1 := rfl
  have hp3 : (pool3 P x).height = ((tb3 P x).height - 2) / 2 + 1 := rfl
  have hd4 : (db4out P x).height = (pool3 P x).height :=
    denseBlockUpTo_height _ _ _ _ _ _ _
  have woc : (outConv1 P x).width = (x.width + 6 - 7) / 2 + 1 := rfl
  have wst : (stemOut P x).width = ((outConv1 P x).width + 2 - 4) / 2 + 1 := rfl
  have wd1 : (db1out P x).width = (stemOut P x).width :=
    denseBlockUpTo_width _ _ _ _ _ _ _
  have wt1 : (tb1 P x).width = ((db1out P x).width - 1) / 1 + 1 := rfl
  have wp1 : (pool1 P x).width = ((tb1 P x).width - 2) / 2 + 1 := rfl
  have wd2 : (db2out P x).width = (pool1 P x).width :=
    denseBlockUpTo_width _ _ _ _ _ _ _
  have wt2 : (tb2 P x).width = ((db2out P x).width - 1) / 1 + 1 := rfl
  have wp2 : (pool2 P x).width = ((tb2 P x).width - 2) / 2 + 1 := rfl
  have wd3 : (db3out P x).width = (pool2 P x).width :=
    denseBlockUpTo_width _ _ _ _ _ _ _
  have wt3 : (tb3 P x).width = ((db3out P x).width - 1) / 1 + 1 := rfl
  have wp3 : (pool3 P x).width = ((tb3 P x).width - 2) / 2 + 1 := rfl
  have wd4 : (db4out P x).width = (pool3 P x).width :=
    denseBlockUpTo_width _ _ _ _ _ _ _
  refine ⟨rfl, rfl, rfl, ?_, ?_, ?_, ?_, ?_, ?_, ?_, ?_⟩ <;> omega

/-- Witness for the amended C8 at the concrete model `P0` and 32x32 input. -/
theorem encoder_structure_and_skips_witness :
    bottleneck P0 x0 = leakyRelu (encApply (mkFeatures P0) x0)
    ∧ forwardSkipArgs P0 x0 = [tb3 P0 x0, tb2 P0 x0, tb1 P0 x0, outConv1 P0 x0]
    ∧ (forwardSkipArgs P0 x0).length = 4
    ∧ x0.height > (db1out P0 x0).height
    ∧ (db1out P0 x0).height > (db2out P0 x0).height
    ∧ (db2out P0 x0).height > (db3out P0 x0).height
    ∧ (db3out P0 x0).height > (db4out P0 x0).height
    ∧ x0.width > (db1out P0 x0).width
    ∧ (db1out P0 x0).width > (db2out P0 x0).width
    ∧ (db2out P0 x0).width > (db3out P0 x0).width
    ∧ (db3out P0 x0).width > (db4out P0 x0).width :=
  encoder_structure_and_skips P0 x0 (by decide) (by decide)

/-- The concrete model `Pup` with the bilinear trick enabled
(`outputSize = (427, 571)`). -/
noncomputable def Pbt : DenseUNetP := { Pup with bilinear_trick := true }

/-- Claim C4 evaluated at a failing input: with `bilinear_trick=True`, line 298
of `forward` applies `self.upsample` to the stale variable `out` — the
`d_block4` output from line 287 — and discards the result, so the returned
regression output is `tanh(last_conv(out_reg_d1))` at decoder resolution
(32x32 here), not at the configured `outputSize` (427x571); the flag has no
effect on the returned value.  Worse, the discarded `self.upsample` call feeds a
3-channel tensor to a convolution declared with `output_nc = 1` input channels,
a shape mismatch that makes the real module raise at run time. -/
theorem bilinear_trick_dead_store :
    Pbt.bilinear_trick = true
    ∧ forward Pbt x0 = Sum.inl (outReg Pbt x0)
    ∧ (outReg Pbt x0).height = 32
    ∧ (outReg Pbt x0).width = 32
    ∧ effOutputSize Pbt = (427, 571)
    ∧ (outReg Pbt x0).height ≠ (effOutputSize Pbt).1
    ∧ (outReg Pbt x0).width ≠ (effOutputSize Pbt).2
    ∧ outReg Pbt x0 = outReg { Pbt with bilinear_trick := false } x0
    ∧ (upsampleStage Pbt (dOut4 Pbt x0)).height = 427
    ∧ (dOut4 Pbt x0).channels = 3
    ∧ Pbt.output_nc = 1
    ∧ (dOut4 Pbt x0).channels ≠ Pbt.output_nc := by
  refine ⟨rfl, rfl, by decide, by decide, by decide, by decide, by decide, rfl,
    by decide, by decide, rfl, by decide⟩
